import Mathlib

/-!
Shallow embedding of the crowd-monitoring engine of `backend/app/logic.py`
(with the data shapes of `backend/app/schemas.py`).

Modelling conventions:
* Python `int` counts become `Int`; Python `float` densities and deltas
  become `ℚ` (all arithmetic in the source is exact at the rationals that
  occur in the claims).
* The two module-level dicts `current_counts` and `density_history` become
  the two fields of `EngineState`; a dict is a function into `Option _`
  (`none` = key absent).
* The optional joblib model becomes `Option (Int → ℚ)`: the narrow interface
  `predict(previous_count) -> predicted_count`.  A second variant
  `predict_future_riskE` models the model call as fallible
  (`Int → Except String ℚ`) to reason about error propagation.
* `datetime.utcnow()` becomes an explicit clock argument `now : Int` passed
  to `get_system_status`.
-/

namespace CrowdLogic

/-- Embeds `schemas.CameraData`: `count: int`. -/
structure CameraData where
  count : Int
deriving DecidableEq

/-- Embeds `schemas.IngestData`: `source_id`, `source_type`, `timestamp`, `data`.
The engine only reads `source_id` and `data.count`; the timestamp is opaque. -/
structure IngestData where
  source_id : String
  source_type : String
  timestamp : Int
  data : CameraData
deriving DecidableEq

/-- Embeds `schemas.ZoneStatus`. -/
structure ZoneStatus where
  zone_id : String
  display_name : String
  density : ℚ
  risk_level : String
  predicted_risk_level : String
  trend : String
deriving DecidableEq

/-- Embeds `schemas.Alert`. -/
structure Alert where
  id : String
  timestamp : Int
  zone_id : String
  title : String
  message : String
deriving DecidableEq

/-- Embeds `schemas.SystemStatus`. -/
structure SystemStatus where
  zones : List ZoneStatus
  alerts : List Alert
deriving DecidableEq

/-- The process-wide in-memory storage of `logic.py`:
`current_counts = {}` and `density_history = {}` (source_id -> list of counts). -/
structure EngineState where
  current_counts : String → Option Int
  density_history : String → Option (List Int)

/-- The state at module load: both dicts empty. -/
def initialState : EngineState :=
  { current_counts := fun _ => none, density_history := fun _ => none }

/-- The constant `MAX_HISTORY = 10` (logic.py line 10). -/
def MAX_HISTORY : Nat := 10

/-- Reading `density_history.get(source, [])`: the history window of a source,
empty when the source is unknown. -/
def historyOf (st : EngineState) (s : String) : List Int :=
  (st.density_history s).getD []

/-- Python slice `l[-n:]`: the last `n` elements (the whole list when
`l` has fewer than `n` elements). -/
def lastN (n : Nat) (l : List α) : List α :=
  l.drop (l.length - n)

/-- Embeds `np.diff`: consecutive first differences of a list. -/
def npDiff : List Int → List Int
  | a :: b :: rest => (b - a) :: npDiff (b :: rest)
  | _ => []

/-- Embeds `np.mean` on a list of integers (as a rational; the source only
applies it to nonempty lists). -/
def npMean (l : List Int) : ℚ :=
  (l.sum : ℚ) / (l.length : ℚ)

/-- Embeds `process_new_data` (logic.py lines 22-35): store the latest count and
append it to the source's history, trimming the history to the last
`MAX_HISTORY` entries when it overflows. -/
def process_new_data (st : EngineState) (data : IngestData) : EngineState :=
  let source := data.source_id
  let count := data.data.count
  let hist0 := (st.density_history source).getD []   -- created if absent
  let hist1 := hist0 ++ [count]
  let hist2 := if hist1.length > MAX_HISTORY then hist1.drop (hist1.length - MAX_HISTORY) else hist1
  { current_counts := fun s => if s = source then some count else st.current_counts s,
    density_history := fun s => if s = source then some hist2 else st.density_history s }

/-- The risk mapping `get_risk` (logic.py lines 78-84); the final
classification of `predict_future_risk` (lines 57-62) repeats the same
thresholds verbatim. -/
def get_risk (d : ℚ) : String :=
  if d > 0.8 then "high"
  else if d > 0.5 then "medium"
  else "low"

/-- The trend-based fallback branch of `predict_future_risk`
(logic.py lines 48-54 together with the shared classification 56-62):
fewer than 3 history entries short-circuit to `"low"`; otherwise the mean
of the consecutive differences of the last 3 entries, divided by 200, is
added to the current density, clamped to `[0,1]` and classified. -/
def trend_fallback (st : EngineState) (zone_id : String) (density : ℚ) : String :=
  let history := historyOf st zone_id
  if history.length < 3 then "low"
  else
    let recent_trend := npMean (npDiff (lastN 3 history))
    let predicted_density := min (max (density + recent_trend / 200.0) 0.0) 1.0
    get_risk predicted_density

/-- Embeds `predict_future_risk` (logic.py lines 39-62).  The guard
`if model and zone_id == "cam_01"` selects the model path; `prev_count`
is the last history entry (0 when the source's history is absent or
empty, via Python truthiness of `density_history.get(zone_id)`). -/
def predict_future_risk (model : Option (Int → ℚ)) (st : EngineState)
    (zone_id : String) (density : ℚ) : String :=
  match model with
  | some m =>
      if zone_id = "cam_01" then
        let prev_count : Int := (historyOf st zone_id).getLast?.getD 0
        let predicted_count : ℚ := m prev_count
        let predicted_density : ℚ := min (max (predicted_count / 200.0) 0.0) 1.0
        get_risk predicted_density
      else
        trend_fallback st zone_id density
  | none => trend_fallback st zone_id density

/-- Embeds `predict_future_risk` with a fallible model call: the source wraps
`model.predict([[prev_count]])[0]` in no `try`/`except`, so an exception
raised by the model invocation propagates out of the function; only this
model branch can fail. -/
def predict_future_riskE (model : Option (Int → Except String ℚ)) (st : EngineState)
    (zone_id : String) (density : ℚ) : Except String String :=
  match model with
  | some m =>
      if zone_id = "cam_01" then
        let prev_count : Int := (historyOf st zone_id).getLast?.getD 0
        match m prev_count with
        | Except.ok predicted_count =>
            Except.ok (get_risk (min (max (predicted_count / 200.0) 0.0) 1.0))
        | Except.error e => Except.error e
      else
        Except.ok (trend_fallback st zone_id density)
  | none => Except.ok (trend_fallback st zone_id density)

/-- The local `get_trend` of `get_system_status` (logic.py lines 91-101). -/
def get_trend (st : EngineState) (source_id : String) : String :=
  let hist := historyOf st source_id
  if hist.length < 3 then "stable"
  else
    let diff := npMean (npDiff (lastN 3 hist))
    if diff > 2 then "up"
    else if diff < -2 then "down"
    else "stable"

/-- Embeds `get_system_status` (logic.py lines 65-141).  `now` stands for
`datetime.utcnow()`.  The function only reads the store (`dict.get`), so
it returns the input state unchanged as its second component. -/
def get_system_status (model : Option (Int → ℚ)) (now : Int) (st : EngineState) :
    SystemStatus × EngineState :=
  let gate_a_count : Int := (st.current_counts "cam_01").getD 0
  let stage_count : Int := (st.current_counts "cam_02").getD 0
  let density_a : ℚ := min ((gate_a_count : ℚ) / 200.0) 1.0
  let density_b : ℚ := min ((stage_count : ℚ) / 200.0) 1.0
  let predicted_risk_a := predict_future_risk model st "cam_01" density_a
  let predicted_risk_b := predict_future_risk model st "cam_02" density_b
  let zone1 : ZoneStatus :=
    { zone_id := "gate_a", display_name := "Main Gate A", density := density_a,
      risk_level := get_risk density_a, predicted_risk_level := predicted_risk_a,
      trend := get_trend st "cam_01" }
  let zone2 : ZoneStatus :=
    { zone_id := "stage_front", display_name := "Stage Front", density := density_b,
      risk_level := get_risk density_b, predicted_risk_level := predicted_risk_b,
      trend := get_trend st "cam_02" }
  let alerts : List Alert :=
    (if zone1.risk_level = "high" then
      [{ id := "alert_1", timestamp := now, zone_id := "gate_a",
         title := "⚠️ High Risk at Main Gate A",
         message := "Crowd density critical. Please redirect flow." }] else [])
    ++ (if zone2.risk_level = "high" then
      [{ id := "alert_2", timestamp := now, zone_id := "stage_front",
         title := "⚠️ High Risk at Stage Front",
         message := "High density detected. Manage access routes." }] else [])
  ({ zones := [zone1, zone2], alerts := alerts }, st)

/-- Ingest a sequence of counts for one source through `process_new_data`
(in the deployment these arrive as POST `/api/ingest` requests). -/
def ingestList (st : EngineState) (s : String) : List Int → EngineState
  | [] => st
  | c :: cs => ingestList (process_new_data st { source_id := s, source_type := "camera", timestamp := 0, data := { count := c } }) s cs

/-! ### List lemmas about `lastN` (Python `l[-n:]`) -/

theorem lastN_length_le (n : Nat) (l : List α) : (lastN n l).length ≤ n := by
  simp only [lastN, List.length_drop]
  omega

theorem lastN_of_length_le {n : Nat} {l : List α} (h : l.length ≤ n) : lastN n l = l := by
  simp only [lastN, Nat.sub_eq_zero_of_le h, List.drop_zero]

theorem lastN_append_lastN (n : Nat) (l l' : List α) :
    lastN n (lastN n l ++ l') = lastN n (l ++ l') := by
  unfold lastN
  rw [← List.drop_append_of_le_length (Nat.sub_le l.length n), List.drop_drop]
  congr 1
  simp only [List.length_drop, List.length_append]
  omega

theorem lastN_eq_cons_length {n : Nat} {l l' : List α} (h : lastN n l = l') :
    l'.length = min n l.length := by
  subst h
  simp only [lastN, List.length_drop]
  omega

/-! ### The ingestion step on one source's history -/

theorem historyOf_process_self (st : EngineState) (d : IngestData) :
    historyOf (process_new_data st d) d.source_id
      = lastN MAX_HISTORY (historyOf st d.source_id ++ [d.data.count]) := by
  simp only [process_new_data, historyOf, if_pos, Option.getD_some]
  by_cases hl : ((st.density_history d.source_id).getD [] ++ [d.data.count]).length > MAX_HISTORY
  · rw [if_pos hl]; rfl
  · rw [if_neg hl]
    exact (lastN_of_length_le (by omega)).symm

theorem historyOf_process_other (st : EngineState) (d : IngestData) (s' : String)
    (h : s' ≠ d.source_id) :
    historyOf (process_new_data st d) s' = historyOf st s' := by
  simp only [process_new_data, historyOf, if_neg h]

theorem current_counts_process_self (st : EngineState) (d : IngestData) :
    (process_new_data st d).current_counts d.source_id = some d.data.count := by
  simp only [process_new_data, if_pos]

/-! ### Folding a whole sequence of ingests for one source -/

theorem historyOf_ingestList (s : String) (cs : List Int) (st : EngineState)
    (hlen : (historyOf st s).length ≤ MAX_HISTORY) :
    historyOf (ingestList st s cs) s = lastN MAX_HISTORY (historyOf st s ++ cs) := by
  induction cs generalizing st with
  | nil =>
      simp only [ingestList, List.append_nil]
      exact (lastN_of_length_le hlen).symm
  | cons c cs ih =>
      simp only [ingestList]
      rw [ih _ (by rw [historyOf_process_self]; exact lastN_length_le _ _)]
      rw [historyOf_process_self]
      rw [lastN_append_lastN]
      simp only [List.append_assoc, List.singleton_append]

theorem current_counts_ingestList (s : String) (cs : List Int) (st : EngineState) :
    (ingestList st s cs).current_counts s
      = (match cs.getLast? with
         | some c => some c
         | none => st.current_counts s) := by
  induction cs generalizing st with
  | nil => rfl
  | cons c cs ih =>
      simp only [ingestList]
      rw [ih]
      cases cs with
      | nil =>
          simp only [List.getLast?_nil, List.getLast?_singleton]
          exact current_counts_process_self st _
      | cons c' cs' =>
          cases h : (c' :: cs').getLast? with
          | some x => rw [List.getLast?_cons_cons, h]
          | none => simp at h

/-- C1.  For every source and every sequence of ingested counts (starting
from the empty store), after the whole sequence the history window has
length at most `MAX_HISTORY`, equals exactly the most recently ingested
counts in arrival order (the last `MAX_HISTORY` of the sequence, oldest
dropped first), and the stored latest count equals the most recently
appended value.  Every prefix of a sequence is itself a sequence, so this
states the invariant after every ingestion. -/
theorem C1_window_invariant (s : String) (cs : List Int) :
    (historyOf (ingestList initialState s cs) s).length ≤ MAX_HISTORY
  ∧ historyOf (ingestList initialState s cs) s = lastN MAX_HISTORY cs
  ∧ (ingestList initialState s cs).current_counts s = cs.getLast? := by
  have h0 : historyOf initialState s = [] := rfl
  have hh := historyOf_ingestList s cs initialState (by rw [h0]; simp [MAX_HISTORY])
  rw [h0, List.nil_append] at hh
  refine ⟨?_, hh, ?_⟩
  · rw [hh]; exact lastN_length_le _ _
  · rw [current_counts_ingestList]
    cases hlast : cs.getLast? with
    | none => rfl
    | some c => rfl

/-- C10.  Ingestion only touches the entries of the ingested source: for
every other source id, both the latest count and the history window are
unchanged. -/
theorem C10_ingest_frame (st : EngineState) (d : IngestData) (s' : String)
    (h : s' ≠ d.source_id) :
    (process_new_data st d).current_counts s' = st.current_counts s'
  ∧ (process_new_data st d).density_history s' = st.density_history s' := by
  constructor <;> simp only [process_new_data, if_neg h]

theorem C10_ingest_frame_witness :
    (process_new_data initialState
        { source_id := "cam_01", source_type := "camera", timestamp := 0,
          data := { count := 5 } }).current_counts "cam_02"
      = initialState.current_counts "cam_02"
  ∧ (process_new_data initialState
        { source_id := "cam_01", source_type := "camera", timestamp := 0,
          data := { count := 5 } }).density_history "cam_02"
      = initialState.density_history "cam_02" :=
  C10_ingest_frame initialState _ "cam_02" (by decide)

/-- Order on risk levels (low < medium < high), for stating monotonicity. -/
def riskRank : String → Nat
  | "medium" => 1
  | "high" => 2
  | _ => 0

/-- C4.  The risk classifier is non-decreasing in density, and at the
boundaries density 0.8 is `"medium"` (strict `>`), 0.50001 is `"medium"`,
and 0.5 is `"low"`. -/
theorem C4_classifier_monotone_boundaries :
    (∀ d₁ d₂ : ℚ, d₁ ≤ d₂ → riskRank (get_risk d₁) ≤ riskRank (get_risk d₂))
  ∧ get_risk 0.8 = "medium" ∧ get_risk 0.50001 = "medium" ∧ get_risk 0.5 = "low" := by
  refine ⟨?_, by norm_num [get_risk], by norm_num [get_risk], by norm_num [get_risk]⟩
  intro d₁ d₂ h
  unfold get_risk
  split_ifs <;> first | decide | (exfalso; linarith)

theorem C4_witness : riskRank (get_risk 0) ≤ riskRank (get_risk 1) :=
  C4_classifier_monotone_boundaries.1 0 1 (by norm_num)

/-- The value `np.mean (np.diff [a, b, c])` is the mean of the two consecutive
first differences. -/
theorem npMean_npDiff_three (a b c : Int) :
    npMean (npDiff [a, b, c]) = (((b - a : Int) : ℚ) + ((c - b : Int) : ℚ)) / 2 := by
  simp only [npDiff, npMean, List.sum_cons, List.sum_nil, List.length_cons, List.length_nil]
  push_cast
  ring

/-- C7.  The trend label is `"stable"` with fewer than 3 history entries;
with at least 3 entries (last three `[a, b, c]`) the delta is the mean of
the two consecutive first differences, labelled `"up"` above 2, `"down"`
below -2, `"stable"` otherwise. -/
theorem C7_trend (st : EngineState) (source : String) :
    ((historyOf st source).length < 3 → get_trend st source = "stable")
  ∧ (∀ a b c : Int, lastN 3 (historyOf st source) = [a, b, c] →
      get_trend st source =
        (if (((b - a : Int) : ℚ) + ((c - b : Int) : ℚ)) / 2 > 2 then "up"
         else if (((b - a : Int) : ℚ) + ((c - b : Int) : ℚ)) / 2 < -2 then "down"
         else "stable")) := by
  constructor
  · intro hlen
    simp only [get_trend, if_pos hlen]
  · intro a b c hlast
    have h3 : ¬ (historyOf st source).length < 3 := by
      have := lastN_eq_cons_length hlast
      simp only [List.length_cons, List.length_nil] at this
      omega
    simp only [get_trend, if_neg h3, hlast, npMean_npDiff_three]

/-- The state after ingesting `[0, 10, 20]` for `cam_01` (used to
instantiate trend theorems at a concrete input). -/
def stTrendW : EngineState := ingestList initialState "cam_01" [0, 10, 20]

theorem C7_trend_witness :
    get_trend stTrendW "cam_01" =
      (if (((10 - 0 : Int) : ℚ) + ((20 - 10 : Int) : ℚ)) / 2 > 2 then "up"
       else if (((10 - 0 : Int) : ℚ) + ((20 - 10 : Int) : ℚ)) / 2 < -2 then "down"
       else "stable") :=
  (C7_trend stTrendW "cam_01").2 0 10 20 (by decide)

/-- On the no-model / non-eligible branch the predictor is the trend-based
fallback. -/
theorem predict_eq_fallback (model : Option (Int → ℚ)) (st : EngineState)
    (source : String) (density : ℚ) (h : model = none ∨ source ≠ "cam_01") :
    predict_future_risk model st source density = trend_fallback st source density := by
  rcases h with h | h
  · rw [h]; rfl
  · cases model with
    | none => rfl
    | some m => simp only [predict_future_risk, if_neg h]

/-- C3.  On the no-model / non-eligible branch: fewer than 3 history
entries predict `"low"` unconditionally (the density argument is unused);
with last three entries `[a, b, c]` the predicted density is the current
density plus the mean of the two consecutive first differences divided by
200, clamped to `[0, 1]`, classified with the same thresholds as current
risk (`get_risk`). -/
theorem C3_fallback_prediction (model : Option (Int → ℚ)) (st : EngineState)
    (source : String) (density : ℚ) (h : model = none ∨ source ≠ "cam_01") :
    ((historyOf st source).length < 3 →
        predict_future_risk model st source density = "low")
  ∧ (∀ a b c : Int, lastN 3 (historyOf st source) = [a, b, c] →
      predict_future_risk model st source density
        = get_risk (min (max (density
            + ((((b - a : Int) : ℚ) + ((c - b : Int) : ℚ)) / 2) / 200) 0) 1)) := by
  constructor
  · intro hlen
    rw [predict_eq_fallback model st source density h]
    simp only [trend_fallback, if_pos hlen]
  · intro a b c hlast
    have h3 : ¬ (historyOf st source).length < 3 := by
      have := lastN_eq_cons_length hlast
      simp only [List.length_cons, List.length_nil] at this
      omega
    rw [predict_eq_fallback model st source density h]
    simp only [trend_fallback, if_neg h3, hlast, npMean_npDiff_three]
    norm_num

/-- The state after ingesting `[10, 20, 40]` for `cam_02` (used to
instantiate fallback-prediction theorems at a concrete input). -/
def stFallbackW : EngineState := ingestList initialState "cam_02" [10, 20, 40]

theorem C3_fallback_prediction_witness :
    predict_future_risk none stFallbackW "cam_02" 0
      = get_risk (min (max ((0 : ℚ)
          + ((((20 - 10 : Int) : ℚ) + ((40 - 20 : Int) : ℚ)) / 2) / 200) 0) 1) :=
  (C3_fallback_prediction none stFallbackW "cam_02" 0 (Or.inl rfl)).2 10 20 40 (by decide)

/-- C6.  With a model present, only source `"cam_01"` takes the model path
(the model's output on the most recent recorded count, normalized and
clamped, is classified); every other source predicts exactly as it would
with no model present. -/
theorem C6_model_path_isolation (m : Int → ℚ) (st : EngineState)
    (source : String) (density : ℚ) :
    (predict_future_risk (some m) st "cam_01" density
        = get_risk (min (max (m ((historyOf st "cam_01").getLast?.getD 0) / 200) 0) 1))
  ∧ (source ≠ "cam_01" →
      predict_future_risk (some m) st source density
        = predict_future_risk none st source density) := by
  constructor
  · simp only [predict_future_risk, if_pos]
    norm_num
  · intro h
    simp only [predict_future_risk, if_neg h]

theorem C6_model_path_isolation_witness :
    predict_future_risk (some (fun c => (c : ℚ))) initialState "cam_02" 0
      = predict_future_risk none initialState "cam_02" 0 :=
  (C6_model_path_isolation (fun c => (c : ℚ)) initialState "cam_02" 0).2 (by decide)

/-- C5 counterexample.  The source wraps the model call in no
`try`/`except`: a failing model invocation on the model-eligible source
propagates out of `predict_future_risk` instead of falling back to the
trend-based prediction (which would have returned `"low"` here). -/
theorem C5_counterexample :
    predict_future_riskE (some (fun _ => Except.error "model failure"))
        initialState "cam_01" 0.5
      = Except.error "model failure"
  ∧ trend_fallback initialState "cam_01" 0.5 = "low" := by
  constructor
  · norm_num [predict_future_riskE]
  · norm_num [trend_fallback, historyOf, initialState]

/-- C5 amended.  Model *absence* (or a non-eligible source) is handled:
the predictor falls back to the trend-based prediction and never fails,
for any history length; only a failure raised by the model invocation
itself (model present, eligible source) propagates. -/
theorem C5_model_absence_fallback (model : Option (Int → Except String ℚ))
    (st : EngineState) (source : String) (density : ℚ)
    (h : model = none ∨ source ≠ "cam_01") :
    predict_future_riskE model st source density
      = Except.ok (trend_fallback st source density) := by
  rcases h with h | h
  · rw [h]; rfl
  · cases model with
    | none => rfl
    | some m => simp only [predict_future_riskE, if_neg h]

theorem C5_model_absence_fallback_witness :
    predict_future_riskE none initialState "cam_01" 0 = Except.ok "low" := by
  rw [C5_model_absence_fallback none initialState "cam_01" 0 (Or.inl rfl)]
  norm_num [trend_fallback, historyOf, initialState]

/-- C8.  The status read is pure: it leaves the history store unchanged
(the source performs only `dict.get` reads), and reading twice with no
intervening ingestion (and the same aggregation clock) yields identical
`SystemStatus` outputs. -/
theorem C8_idempotent_read (model : Option (Int → ℚ)) (now : Int) (st : EngineState) :
    (get_system_status model now st).2 = st
  ∧ (get_system_status model now ((get_system_status model now st).2)).1
      = (get_system_status model now st).1 :=
  ⟨rfl, rfl⟩

/-- The store after ingesting `[100, 150, 220, 260]` for `cam_01`
(end-to-end scenario B of the spec, with no model configured). -/
def scenarioB_state : EngineState :=
  ingestList initialState "cam_01" [100, 150, 220, 260]

/-- C9.  End-to-end scenario B: after ingesting `[100, 150, 220, 260]`
for `cam_01` from the empty store with no model, the first zone of the
snapshot is `gate_a` with density `min(260/200, 1) = 1`, current risk
`"high"` and trend `"up"`, and exactly one alert is emitted, for
`gate_a`. -/
theorem C9_scenarioB :
    (get_system_status none 0 scenarioB_state).1.zones.head?.map ZoneStatus.zone_id
      = some "gate_a"
  ∧ (get_system_status none 0 scenarioB_state).1.zones.head?.map ZoneStatus.density
      = some 1
  ∧ (get_system_status none 0 scenarioB_state).1.zones.head?.map ZoneStatus.risk_level
      = some "high"
  ∧ (get_system_status none 0 scenarioB_state).1.zones.head?.map ZoneStatus.trend
      = some "up"
  ∧ (get_system_status none 0 scenarioB_state).1.alerts.map Alert.zone_id = ["gate_a"] := by
  have hcc1 : scenarioB_state.current_counts "cam_01" = some 260 := by decide
  have hcc2 : scenarioB_state.current_counts "cam_02" = none := by decide
  have hh1 : historyOf scenarioB_state "cam_01" = [100, 150, 220, 260] := by decide
  have hh2 : historyOf scenarioB_state "cam_02" = [] := by decide
  norm_num [get_system_status, get_risk, get_trend, trend_fallback,
    predict_future_risk, lastN, npDiff, npMean, hcc1, hcc2, hh1, hh2]
  decide

/-- C2.  The snapshot lists the zones in the configured static order
`[gate_a, stage_front]`; the alert list is exactly one alert per zone
whose *current* risk level is `"high"`, in the same zone order (so `"low"`
and `"medium"` zones produce none); and each alert carries the
zone-specific fixed id and a matching `zone_id`. -/
theorem C2_alerts_iff_high (model : Option (Int → ℚ)) (now : Int) (st : EngineState) :
    ((get_system_status model now st).1.zones.map ZoneStatus.zone_id
        = ["gate_a", "stage_front"])
  ∧ ((get_system_status model now st).1.alerts.map Alert.zone_id
        = (((get_system_status model now st).1.zones.filter
            (fun z => z.risk_level == "high")).map ZoneStatus.zone_id))
  ∧ (∀ a ∈ (get_system_status model now st).1.alerts,
        (a.zone_id = "gate_a" ∧ a.id = "alert_1")
      ∨ (a.zone_id = "stage_front" ∧ a.id = "alert_2")) := by
  refine ⟨rfl, ?_, ?_⟩ <;>
    simp only [get_system_status] <;>
    split_ifs <;>
    simp_all [List.filter_cons, List.filter_nil, beq_iff_eq]

theorem C2_witness :
    ({ id := "alert_1", timestamp := 0, zone_id := "gate_a",
       title := "⚠️ High Risk at Main Gate A",
       message := "Crowd density critical. Please redirect flow." } : Alert).zone_id
        = "gate_a"
    ∧ ({ id := "alert_1", timestamp := 0, zone_id := "gate_a",
         title := "⚠️ High Risk at Main Gate A",
         message := "Crowd density critical. Please redirect flow." } : Alert).id
        = "alert_1"
  ∨ ({ id := "alert_1", timestamp := 0, zone_id := "gate_a",
       title := "⚠️ High Risk at Main Gate A",
       message := "Crowd density critical. Please redirect flow." } : Alert).zone_id
        = "stage_front"
    ∧ ({ id := "alert_1", timestamp := 0, zone_id := "gate_a",
         title := "⚠️ High Risk at Main Gate A",
         message := "Crowd density critical. Please redirect flow." } : Alert).id
        = "alert_2" :=
  (C2_alerts_iff_high none 0 scenarioB_state).2.2 _ (by
    have hcc1 : scenarioB_state.current_counts "cam_01" = some 260 := by decide
    norm_num [get_system_status, get_risk, hcc1])

end CrowdLogic
